import Mathlib

/-!
Shallow embedding of the plex-webhook enrichment pipeline (src/src/imdb.py,
src/src/plex.py, src/src/tasks.py, src/src/utils.py, src/src/app.py) and
proofs about its behaviour.

Python data reaching the embedded code paths is modelled by `PyVal`;
machinery the code calls into (HTTP transport, BeautifulSoup, json, Celery's
retry driver, functools.lru_cache) is modelled explicitly at the call
boundary, following the semantics documented for those libraries.
-/

set_option autoImplicit false

namespace PlexWebhook

/-- Python exceptions that can arise in the embedded code paths.
An `Except.error` carrying one of these models an exception propagating
out of the modelled Python expression. -/
inductive PyExc where
  | keyError
  | typeError
  | attributeError
  | indexError
  | jsonDecodeError
  deriving DecidableEq

/-- Python values as they occur in webhook payloads and in JSON parsed by
`json.loads`.  A float is abstracted by its canonical `str()` rendering
(Python prints a canonical decimal form per value, so this determines the
value for every use the code makes of it: truthiness and `str()`). -/
inductive PyVal where
  | none
  | bool (b : Bool)
  | int (n : Int)
  | float (r : String)
  | str (s : String)
  | list (xs : List PyVal)
  | dict (entries : List (String × PyVal))

/-- Python truthiness (`bool(v)`) for the modelled values.  A float is falsy
exactly when it is zero, i.e. when its canonical rendering is `0.0` or
`-0.0`. -/
def pyTruthy : PyVal → Bool
  | .none => false
  | .bool b => b
  | .int n => n != 0
  | .float r => !(r == "0.0" || r == "-0.0")
  | .str s => s != ""
  | .list xs => !xs.isEmpty
  | .dict es => !es.isEmpty

/-- Python `str(v)` for the values the code converts: `None`, booleans,
ints, floats and strings.  Containers never reach a `str()` call on the
claim-relevant paths (the label writer filters them out first), so their
rendering is abstracted as the empty string. -/
def pyStrOf : PyVal → String
  | .none => "None"
  | .bool true => "True"
  | .bool false => "False"
  | .int n => toString n
  | .float r => r
  | .str s => s
  | .list _ => ""
  | .dict _ => ""

def isPyList : PyVal → Bool
  | .list _ => true
  | _ => false

def pyListElems : PyVal → List PyVal
  | .list xs => xs
  | _ => []

def isPyDict : PyVal → Bool
  | .dict _ => true
  | _ => false

def pyDictEntries : PyVal → List (String × PyVal)
  | .dict es => es
  | _ => []

/-- The whitespace characters stripped by Python `str.strip()` (ASCII
fragment: space, tab, newline, carriage return, vertical tab, form feed). -/
def pyWs (c : Char) : Bool :=
  c = ' ' || c = Char.ofNat 9 || c = Char.ofNat 10 || c = Char.ofNat 13
    || c = Char.ofNat 11 || c = Char.ofNat 12

/-- Python `str.strip()` on the character list of a string. -/
def pyStripList (cs : List Char) : List Char :=
  ((cs.dropWhile pyWs).reverse.dropWhile pyWs).reverse

def pyStripStr (s : String) : String :=
  String.mk (pyStripList s.toList)

/-- Python `str.isdigit()` on a character list (ASCII fragment: the code only
meets identifiers and rating keys, for which `isdigit` coincides with
"every character is a decimal digit", and the string must be non-empty). -/
def pyIsdigitList (cs : List Char) : Bool :=
  !cs.isEmpty && cs.all Char.isDigit

def pyIsdigit (s : String) : Bool :=
  pyIsdigitList s.toList

/-- Python `s.startswith(pre)`. -/
def pyStartswith (s pre : String) : Bool :=
  s.toList.take pre.toList.length == pre.toList

/-- Does the character list `s` begin with `pat`? -/
def listStarts (s pat : List Char) : Bool :=
  s.take pat.length == pat

/-- Index of the first occurrence of `pat` in `s`, if any. -/
def firstOcc (pat s : List Char) : Option Nat :=
  (List.range (s.length + 1)).find? (fun i => listStarts (s.drop i) pat)

/-- Fuelled worker for Python `str.split(sep)` with a non-empty separator:
split at each non-overlapping occurrence of `sep`, left to right. -/
def pySplitGo (sep : List Char) : Nat → List Char → List (List Char)
  | 0, s => [s]
  | Nat.succ fuel, s =>
    match firstOcc sep s with
    | Option.none => [s]
    | some i => s.take i :: pySplitGo sep fuel (s.drop (i + sep.length))

/-- Python `s.split(sep)` for a non-empty separator. -/
def pySplit (s sep : String) : List String :=
  (pySplitGo sep.toList (s.toList.length + 1) s.toList).map (fun cs => String.mk cs)

/-- Does `s` contain `sub` as a contiguous substring? -/
def strContains (s sub : String) : Bool :=
  (firstOcc sub.toList s.toList).isSome

/-! ## src/utils.py -/

/-- The characters removed by `sanitise_string`: the two angle brackets and
then the two quote characters and the semicolon. -/
def badChar (c : Char) : Bool :=
  c = '<' || c = '>' || c = Char.ofNat 39 || c = Char.ofNat 34 || c = ';'

/-- The character pipeline of `sanitise_string`: strip, remove `<` and `>`
(the first `re.sub`), remove `'`, `"` and `;` (the second `re.sub`), then
truncate to 1000 characters. -/
def sanitiseList (cs : List Char) : List Char :=
  (((pyStripList cs).filter (fun c => !(c = '<' || c = '>'))).filter
      (fun c => !(c = Char.ofNat 39 || c = Char.ofNat 34 || c = ';'))).take 1000

/-- `sanitise_string` from src/utils.py: `None` becomes the empty string;
any other value is converted with `str()`, stripped, has `<` and `>` removed,
then `'`, `"` and `;` removed, and is finally truncated to 1000 characters. -/
def sanitise_string (value : PyVal) : String :=
  match value with
  | .none => ""
  | v => String.mk (sanitiseList (pyStrOf v).toList)

/-! ## src/imdb.py -/

/-- `validate_imdb_id` from src/imdb.py:
`bool(imdb_id and imdb_id.startswith("tt") and len(imdb_id) >= 7 and imdb_id[2:].isdigit())`. -/
def validate_imdb_id (imdb_id : String) : Bool :=
  pyTruthy (.str imdb_id) && pyStartswith imdb_id "tt"
    && decide (7 ≤ imdb_id.toList.length) && pyIsdigitList (imdb_id.toList.drop 2)

def imdbScheme : String := "imdb://"

/-- The loop body of `extract_imdb_id`: iterate over the `Guid` entries; for a
dict entry whose `id` value is a string starting with `imdb://`, take
`guid["id"].split("imdb://")[1]` and return it if it validates, otherwise
continue.  A dict entry whose `id` value is not a string makes
`.startswith` raise `AttributeError`; entries that are not dicts are
skipped by the `isinstance` guard. -/
def extractGo : List PyVal → Except PyExc (Option String)
  | [] => .ok Option.none
  | g :: rest =>
    match g with
    | .dict ges =>
      match (ges.lookup "id").getD (.str "") with
      | .str s =>
        if pyStartswith s imdbScheme then
          match (pySplit s imdbScheme).get? 1 with
          | some cand =>
            if validate_imdb_id cand then .ok (some cand) else extractGo rest
          | Option.none => .error .indexError
        else extractGo rest
      | _ => .error .attributeError
    | _ => extractGo rest

/-- `extract_imdb_id` from src/imdb.py.  `metadata.get("Guid", [])` raises
`AttributeError` on a non-dict; iterating a non-iterable raises `TypeError`;
iterating a string or dict yields non-dict items which the `isinstance`
guard skips.  Every exception is caught by the surrounding
`except Exception`, which logs and returns `None`. -/
def extract_imdb_id (metadata : PyVal) : Option String :=
  match metadata with
  | .dict es =>
    match (es.lookup "Guid").getD (.list []) with
    | .list gs =>
      match extractGo gs with
      | .ok r => r
      | .error _ => Option.none
    | _ => Option.none
  | _ => Option.none

/-- The body of the `script` element with id `__NEXT_DATA__` in the fetched
page, as seen by `get_imdb_keywords` after `BeautifulSoup` parsing:
absent; present with no text (so that `script_tag.string` is `None`);
present with text that `json.loads` rejects; or present with text parsing
to a JSON value. -/
inductive ScriptOutcome where
  | absent
  | noText
  | invalidJson
  | json (j : PyVal)

/-- The outcome of the outbound `requests.get` in `get_imdb_keywords`:
a timeout, a `RequestException` (covering non-2xx responses surfaced by
`raise_for_status` as well as transport errors), or a 2xx response with the
given script-element content. -/
inductive FetchEnv where
  | timeout
  | httpError (status : Option Nat)
  | ok (script : ScriptOutcome)

/-- Python subscription `v[k]` with a string key: dict lookup raising
`KeyError` when the key is missing; every non-dict raises `TypeError`
(lists and strings demand integer indices, scalars are not subscriptable). -/
def pyIndex : PyVal → String → Except PyExc PyVal
  | .dict es, k =>
    match es.lookup k with
    | some v => .ok v
    | Option.none => .error .keyError
  | _, _ => .error .typeError

/-- Python iteration `for x in v`: lists yield their elements, strings their
characters, dicts their keys; other values raise `TypeError`. -/
def pyIter : PyVal → Except PyExc (List PyVal)
  | .list xs => .ok xs
  | .str s => .ok (s.toList.map (fun c => .str (String.mk [c])))
  | .dict es => .ok (es.map (fun e => .str e.1))
  | _ => .error .typeError

/-- `kw["node"]["keyword"]["text"]["text"]` for one element of the edge
list. -/
def keywordOfEdge (kw : PyVal) : Except PyExc PyVal := do
  let n ← pyIndex kw "node"
  let k ← pyIndex n "keyword"
  let t ← pyIndex k "text"
  pyIndex t "text"

/-- The keyword extraction in `get_imdb_keywords`: walk
`data["props"]["pageProps"]["contentData"]["data"]["title"]["keywords"]["edges"]`
and map `keywordOfEdge` over the resulting iterable. -/
def extractKeywords (data : PyVal) : Except PyExc (List PyVal) := do
  let p ← pyIndex data "props"
  let pp ← pyIndex p "pageProps"
  let cd ← pyIndex pp "contentData"
  let d ← pyIndex cd "data"
  let t ← pyIndex d "title"
  let kws ← pyIndex t "keywords"
  let e ← pyIndex kws "edges"
  let xs ← pyIter e
  xs.mapM keywordOfEdge

/-- One un-cached execution of the body of `get_imdb_keywords` from
src/imdb.py.  An invalid id, a timeout, a `RequestException`, a missing
script element or invalid JSON all log and return `[]`.  The inner
`try` catches only `KeyError` and `json.JSONDecodeError`: `json.loads(None)`
(script element with no text) raises `TypeError`, and so does an
unexpectedly shaped JSON value (indexing a non-dict), and these propagate
to the caller. -/
def get_imdb_keywords_core (imdb_id : String) (env : FetchEnv) : Except PyExc (List PyVal) :=
  if !validate_imdb_id imdb_id then .ok []
  else
    match env with
    | .timeout => .ok []
    | .httpError _ => .ok []
    | .ok .absent => .ok []
    | .ok .noText => .error .typeError
    | .ok .invalidJson => .ok []
    | .ok (.json j) =>
      match extractKeywords j with
      | .ok kws => .ok kws
      | .error .keyError => .ok []
      | .error .jsonDecodeError => .ok []
      | .error e => .error e

/-- Capacity of the `functools.lru_cache` on `get_imdb_keywords`. -/
def lruMaxsize : Nat := 1000

/-- The `lru_cache` state: entries most-recently-used first. -/
abbrev Cache := List (String × List PyVal)

def cacheLookup (c : Cache) (k : String) : Option (List PyVal) :=
  c.lookup k

/-- On a cache hit, `lru_cache` moves the entry to most-recently-used. -/
def cacheTouch (c : Cache) (k : String) : Cache :=
  match c.lookup k with
  | some v => (k, v) :: c.filter (fun e => e.1 != k)
  | Option.none => c

/-- On a cache miss, `lru_cache` stores the new result and, when the
capacity is exceeded, evicts the least-recently-used entry. -/
def cacheInsert (c : Cache) (k : String) (v : List PyVal) : Cache :=
  let c2 := (k, v) :: c
  if lruMaxsize < c2.length then c2.take lruMaxsize else c2

/-- The observable outcome of one call to the cached `get_imdb_keywords`:
the returned value (or propagating exception), the updated cache state, and
whether an outbound network request was issued. -/
structure FetchCallResult where
  result : Except PyExc (List PyVal)
  cache : Cache
  networkCalled : Bool

/-- `get_imdb_keywords` from src/imdb.py under its `@lru_cache(maxsize=1000)`
decorator.  A hit returns the cached value without executing the body (so
without any network call); a miss executes the body, which issues a network
request exactly when the id validates, and `lru_cache` stores the result
only when the body returns normally. -/
def get_imdb_keywords (imdb_id : String) (env : FetchEnv) (c : Cache) : FetchCallResult :=
  match cacheLookup c imdb_id with
  | some v => ⟨.ok v, cacheTouch c imdb_id, false⟩
  | Option.none =>
    match get_imdb_keywords_core imdb_id env with
    | .ok v => ⟨.ok v, cacheInsert c imdb_id v, validate_imdb_id imdb_id⟩
    | .error e => ⟨.error e, c, validate_imdb_id imdb_id⟩

/-! ## src/plex.py -/

/-- `validate_rating_key` from src/plex.py:
`bool(rating_key and str(rating_key).isdigit())`. -/
def validate_rating_key (rating_key : PyVal) : Bool :=
  pyTruthy rating_key && pyIsdigit (pyStrOf rating_key)

/-- The outcome of the outbound `requests.put` in `update_plex_labels`:
a 2xx response, a timeout, or a `RequestException` (covering non-2xx
responses surfaced by `raise_for_status` and transport errors). -/
inductive WriteEnv where
  | ok
  | timeout
  | httpError (status : Option Nat)
  deriving DecidableEq

/-- A structured log event, reduced to the fields the claims talk about. -/
structure LogEvent where
  level : String
  event : String
  deriving DecidableEq

/-- The observable outcome of one call to `update_plex_labels`: the returned
boolean, the query parameters of the outbound request when one was issued,
and the log events emitted. -/
structure WriteResult where
  success : Bool
  sentParams : Option (List (String × String))
  logs : List LogEvent
  deriving DecidableEq

/-- The list comprehension in `update_plex_labels`:
`[str(label).strip() for label in labels if label and isinstance(label, (str, int, float))]`.
A Python `bool` is an `int`, so truthy booleans survive the filter. -/
def normalizeLabels (xs : List PyVal) : List String :=
  (xs.filter (fun l => pyTruthy l &&
      (match l with
       | .str _ => true
       | .int _ => true
       | .float _ => true
       | .bool _ => true
       | _ => false))).map (fun l => pyStripStr (pyStrOf l))

/-- The query parameters built by `update_plex_labels`: one
`label[i].tag.tag` field per normalized label, in order. -/
def labelParams (norm : List String) : List (String × String) :=
  norm.enum.map (fun iv => ("label[" ++ toString iv.1 ++ "].tag.tag", iv.2))

/-- `update_plex_labels` from src/plex.py.  Rejects an invalid rating key,
then a falsy or non-list `labels`, then a normalization result that is
empty; otherwise issues the PUT with the indexed label fields and maps the
response to the returned boolean. -/
def update_plex_labels (rating_key : PyVal) (labels : PyVal) (env : WriteEnv) : WriteResult :=
  if !validate_rating_key rating_key then
    ⟨false, Option.none, [⟨"error", "Invalid rating key format"⟩]⟩
  else if !(pyTruthy labels && isPyList labels) then
    ⟨false, Option.none, [⟨"error", "Invalid labels format"⟩]⟩
  else
    let norm := normalizeLabels (pyListElems labels)
    if norm.isEmpty then
      ⟨false, Option.none, [⟨"warning", "No valid labels to update"⟩]⟩
    else
      let ps := labelParams norm
      match env with
      | .ok => ⟨true, some ps, [⟨"info", "plex_labels_updated"⟩]⟩
      | .timeout => ⟨false, some ps, [⟨"error", "Timeout updating Plex labels"⟩]⟩
      | .httpError _ => ⟨false, some ps, [⟨"error", "Failed to update Plex labels"⟩]⟩

/-! ## src/tasks.py -/

/-- The result of one execution of the body of `async_update_labels`:
either the returned success dict (message and labels), or an exception
carrying its message (`ValueError` for no keywords, a bare `Exception` for
a failed label write — both are subclasses of `Exception`, so the retry
path treats them alike). -/
inductive AttemptOutcome where
  | success (message : String) (labels : List PyVal)
  | failure (excMsg : String)

/-- One execution of the body of `async_update_labels` (src/tasks.py),
parameterized by the list the fetcher returned and by the writer's
boolean answer on whatever list it is handed.  `writerCalls` records
every `update_plex_labels` invocation with its arguments. -/
structure AttemptResult where
  outcome : AttemptOutcome
  writerCalls : List (String × List PyVal)

/-- The body of `async_update_labels`: raise on an empty fetch result,
truncate to the first 50 labels, call the writer, raise on a false answer,
otherwise return the success dict whose message reports the truncated
count. -/
def async_update_labels_attempt (imdb_id rating_key : String) (fetched : List PyVal)
    (writer : List PyVal → Bool) : AttemptResult :=
  if fetched.isEmpty then
    ⟨.failure ("No keywords found for IMDb ID: " ++ imdb_id), []⟩
  else
    let labels := fetched.take 50
    if writer labels then
      ⟨.success ("Updated " ++ toString labels.length ++ " labels for " ++ imdb_id) labels,
        [(rating_key, labels)]⟩
    else
      ⟨.failure ("Failed to update Plex labels for rating key: " ++ rating_key),
        [(rating_key, labels)]⟩

/-- `max_retries=3` from the `@celery.task` decorator in src/tasks.py. -/
def celeryMaxRetries : Nat := 3

/-- `default_retry_delay=300` (seconds) from the `@celery.task` decorator. -/
def celeryRetryDelay : Nat := 300

/-- What one queued execution of the task ends in, at a given prior-retry
count: the success dict; a scheduled re-delivery after `delaySeconds`; or a
propagating exception that abandons the job.  `finalFailureLogged` records
whether the `task_failed` event inside the `except MaxRetriesExceededError`
handler was emitted. -/
inductive StepResult where
  | done (message : String)
  | retryScheduled (delaySeconds : Nat)
  | abandonedRaise (excMsg : String) (finalFailureLogged : Bool)
  deriving DecidableEq

/-- One queued execution of `async_update_labels` at prior-retry count `r`,
for a body whose outcome at each retry count is given by `body`.  On an
exception the handler logs `task_error` and calls `self.retry(exc=exc)`;
per Celery's `Task.retry` semantics, with `retries = request.retries + 1`:
when `retries > max_retries` and an `exc` argument is supplied, `retry`
re-raises that exception (`MaxRetriesExceededError` is raised only when no
`exc` is given), so the `except MaxRetriesExceededError` handler — and its
`task_failed` log — is unreachable and the exception propagates, failing
the job; otherwise `retry` raises `Retry` and the task is re-queued with
`countdown = default_retry_delay`. -/
def celeryStep (body : Nat → AttemptOutcome) (r : Nat) : StepResult :=
  match body r with
  | .success m _ => .done m
  | .failure e =>
    if celeryMaxRetries < r + 1 then
      .abandonedRaise e false
    else
      .retryScheduled celeryRetryDelay

/-- Fuelled unfolding of the retry loop: each scheduled retry re-executes
the body with the retry count incremented. -/
def jobTraceGo (body : Nat → AttemptOutcome) : Nat → Nat → List StepResult
  | 0, _ => []
  | Nat.succ fuel, r =>
    match celeryStep body r with
    | .retryScheduled d => .retryScheduled d :: jobTraceGo body fuel (r + 1)
    | s => [s]

/-- The full execution trace of one enrichment job: one `StepResult` per
execution of the task body, starting at retry count 0.  The fuel
`celeryMaxRetries + 1` is sufficient (`jobTrace_last_terminal` below shows
the trace always ends in a terminal step). -/
def jobTrace (body : Nat → AttemptOutcome) : List StepResult :=
  jobTraceGo body (celeryMaxRetries + 1) 0

/-- How many times the task body executes for one job. -/
def bodyExecutions (body : Nat → AttemptOutcome) : Nat :=
  (jobTrace body).length

/-! ## src/app.py -/

/-- What a wrapped route handler does, as seen by the `handle_exceptions`
decorator: return a response normally, or raise `json.JSONDecodeError`, a
`ValueError`, or any other exception, each carrying `str(e)`. -/
inductive HandlerOutcome where
  | ok (status : Nat) (message : String)
  | raiseJsonDecode (msg : String)
  | raiseValue (msg : String)
  | raiseOther (msg : String)

/-- An HTTP response reduced to the fields the claims talk about. -/
structure HttpResponse where
  status : Nat
  message : String
  deriving DecidableEq

/-- `handle_exceptions` from src/app.py: `json.JSONDecodeError` becomes a
400 with a fixed message, `ValueError` a 400 carrying `str(e)`, and any
other exception a 500 whose message is `"Internal server error: " + str(e)`. -/
def handle_exceptions : HandlerOutcome → HttpResponse
  | .ok s m => ⟨s, m⟩
  | .raiseJsonDecode _ => ⟨400, "Invalid JSON payload"⟩
  | .raiseValue m => ⟨400, m⟩
  | .raiseOther m => ⟨500, "Internal server error: " ++ m⟩

/-- Per-service detail in the health check response. -/
structure ServiceReport where
  status : String
  message : String
  deriving DecidableEq

/-- The health check response, reduced to the fields the claims talk
about. -/
structure HealthResult where
  httpStatus : Nat
  bodyStatus : String
  message : String
  celery : ServiceReport
  plex : ServiceReport
  overall : String
  deriving DecidableEq

/-- `health_check` from src/app.py, parameterized by the outcome of
`celery.control.ping` (an exception carries `str(e)`) and by the
`(bool, message)` pair returned by `validate_plex_token`.  The overall
status starts `healthy` and each failing probe downgrades it; a healthy
overall maps to `create_success_response` (200), otherwise to
`create_error_response(..., 500)`. -/
def health_check (celeryPing : Except String Unit) (plexToken : Bool × String) : HealthResult :=
  let celerySvc : ServiceReport :=
    match celeryPing with
    | .ok _ => ⟨"connected", "Connected to Redis successfully"⟩
    | .error e => ⟨"error", e⟩
  let overall1 := match celeryPing with
    | .ok _ => "healthy"
    | .error _ => "unhealthy"
  let plexSvc : ServiceReport := ⟨if plexToken.1 then "connected" else "error", plexToken.2⟩
  let overall2 := if plexToken.1 then overall1 else "unhealthy"
  if overall2 = "healthy" then
    ⟨200, "success", "All services operational", celerySvc, plexSvc, overall2⟩
  else
    ⟨500, "error", "One or more services are experiencing issues", celerySvc, plexSvc, overall2⟩

/-- The `payload` form field of a webhook request, as seen by
`plex_webhook`: absent; present but rejected by `json.loads` (the raised
`JSONDecodeError` is turned into a 400 by `handle_exceptions`); or parsed
to a value. -/
inductive FormPayload where
  | missing
  | invalidJson
  | parsed (v : PyVal)

/-- The observable outcome of `plex_webhook`: the HTTP response, and the
`(imdb_id, rating_key)` pair handed to `async_update_labels.delay` when a
task was enqueued. -/
structure WebhookResult where
  status : Nat
  message : String
  enqueued : Option (String × PyVal)

/-- `plex_webhook` from src/app.py (wrapped in `handle_exceptions`):
reject a missing or unparseable payload, a falsy or non-dict payload, and
an event other than `library.new`; then extract the IMDb id from
`data.get("Metadata", {})` (absence of a valid id is a 400); then require a
truthy, digit-string `ratingKey`; finally sanitise the title, enqueue the
task and answer 202.  When `extract_imdb_id` returns an id, `Metadata` is
necessarily a dict, so the later `metadata.get` calls cannot raise. -/
def plex_webhook (req : FormPayload) : WebhookResult :=
  match req with
  | .missing => ⟨400, "Missing payload", Option.none⟩
  | .invalidJson => ⟨400, "Invalid JSON payload", Option.none⟩
  | .parsed data =>
    if !(pyTruthy data && isPyDict data) then
      ⟨400, "Empty or invalid payload", Option.none⟩
    else
      let eventOk := match (pyDictEntries data).lookup "event" with
        | some (.str s) => s == "library.new"
        | _ => false
      if !eventOk then ⟨400, "Invalid or unsupported webhook event", Option.none⟩
      else
        let metadata := ((pyDictEntries data).lookup "Metadata").getD (.dict [])
        match extract_imdb_id metadata with
        | Option.none => ⟨400, "No valid IMDb ID found", Option.none⟩
        | some imdb =>
          let rk := ((pyDictEntries metadata).lookup "ratingKey").getD .none
          if !pyTruthy rk then ⟨400, "Missing Plex rating key", Option.none⟩
          else if !validate_rating_key rk then ⟨400, "Invalid rating key format", Option.none⟩
          else
            let title := sanitise_string (((pyDictEntries metadata).lookup "title").getD .none)
            let year := ((pyDictEntries metadata).lookup "year").getD .none
            ⟨202, "Processing " ++ title ++ " (" ++ pyStrOf year ++ ")", some (imdb, rk)⟩

/-- The double-quote character, written by code point to keep the embedded
strings readable. -/
def dq : String := String.mk [Char.ofNat 34]

/-- The claim's reading of webhook extraction, for comparison with
`extract_imdb_id`: take the FIRST identifier record carrying the
`imdb://` scheme, strip that scheme from the front, and validate the
remainder — rejecting (None) when that one selected identifier is
invalid. -/
def extract_imdb_id_claim (metadata : PyVal) : Option String :=
  match metadata with
  | .dict es =>
    match (es.lookup "Guid").getD (.list []) with
    | .list gs =>
      let tagged := gs.find? (fun g =>
        match g with
        | .dict ges =>
          match (ges.lookup "id").getD (.str "") with
          | .str s => pyStartswith s imdbScheme
          | _ => false
        | _ => false)
      match tagged with
      | some (.dict ges) =>
        match (ges.lookup "id").getD (.str "") with
        | .str s =>
          let cand := String.mk (s.toList.drop imdbScheme.toList.length)
          if validate_imdb_id cand then some cand else Option.none
        | _ => Option.none
      | _ => Option.none
    | _ => Option.none
  | _ => Option.none

/-- The candidate the code derives from one identifier record, if any:
for a dict record whose `id` is a string carrying the scheme, the segment
`split("imdb://")[1]`, kept only when it validates. -/
def guidCandidate (g : PyVal) : Option String :=
  match g with
  | .dict ges =>
    match (ges.lookup "id").getD (.str "") with
    | .str s =>
      if pyStartswith s imdbScheme then
        match (pySplit s imdbScheme).get? 1 with
        | some cand => if validate_imdb_id cand then some cand else Option.none
        | Option.none => Option.none
      else Option.none
    | _ => Option.none
  | _ => Option.none

/-- The amended reading of webhook extraction: the first record whose
code-derived candidate validates, skipping records whose candidate does
not. -/
def firstValidCandidate (gs : List PyVal) : Option String :=
  (gs.filterMap guidCandidate).head?

/-- A keyword payload of the shape `get_imdb_keywords` expects, with the
given keyword texts. -/
def kwJson (ks : List String) : PyVal :=
  .dict [("props", .dict [("pageProps", .dict [("contentData", .dict [("data", .dict [("title",
    .dict [("keywords", .dict [("edges", .list (ks.map (fun k =>
      .dict [("node", .dict [("keyword", .dict [("text", .dict [("text", .str k)])])])])))])])])])])])]

/-- The `i`-th of `lruMaxsize` pairwise-distinct valid identifiers used to
fill the fetch cache: `tt` followed by `i + 1` ones and `lruMaxsize - i`
zeros (constant length `lruMaxsize + 3`, all digits). -/
def evictId (i : Nat) : String :=
  "tt" ++ String.mk (List.replicate (i + 1) '1' ++ List.replicate (lruMaxsize - i) '0')

/-- `lruMaxsize` distinct fresh identifiers. -/
def evictIds : List String := (List.range lruMaxsize).map evictId

/-- The cache after a first (failing) fetch for `tt0000000` followed by
`lruMaxsize` fetches of distinct other identifiers. -/
def evictedCache : Cache :=
  evictIds.foldl (fun c id => (get_imdb_keywords id FetchEnv.timeout c).cache)
    ((get_imdb_keywords "tt0000000" FetchEnv.timeout []).cache)

/-- A fresh fetch of `tt0000000` against `evictedCache`, with the upstream
now answering a well-formed page carrying keyword `a`. -/
def refetch : FetchCallResult :=
  get_imdb_keywords "tt0000000" (.ok (.json (kwJson ["a"]))) evictedCache

/-! ## General helper lemmas -/

theorem string_ne_empty_iff (s : String) : s ≠ "" ↔ s.data ≠ [] :=
  ⟨fun h hc => h (by cases s; simp_all), fun h hc => h (by rw [hc])⟩

/-- `validate_imdb_id` decides exactly the rule: first two characters are
`tt`, total length at least 7, every later character an ASCII digit. -/
theorem validate_imdb_id_iff (s : String) :
    validate_imdb_id s = true ↔
      (s.toList.take 2 = ['t', 't'] ∧ 7 ≤ s.toList.length ∧
        ∀ c ∈ s.toList.drop 2, c.isDigit = true) := by
  have htt : ("tt" : String).toList = ['t', 't'] := rfl
  unfold validate_imdb_id pyTruthy pyStartswith pyIsdigitList
  rw [htt]
  simp only [Bool.and_eq_true, beq_iff_eq, decide_eq_true_eq, List.all_eq_true,
    Bool.not_eq_true', List.length_cons, List.length_nil, List.isEmpty_eq_false]
  constructor
  · rintro ⟨⟨⟨h1, h2⟩, h3⟩, h4, h5⟩
    exact ⟨by simpa using h2, h3, fun c hc => h5 c hc⟩
  · rintro ⟨h1, h2, h3⟩
    have hlen : s.toList.length = s.data.length := rfl
    have hne : s ≠ "" := by
      rw [string_ne_empty_iff]
      intro hc
      rw [hlen, hc] at h2
      simp at h2
    have hdrop : (s.toList.drop 2) ≠ [] := by
      have hld : (s.toList.drop 2).length = s.toList.length - 2 := List.length_drop 2 _
      intro hc
      rw [hc] at hld
      simp only [List.length_nil] at hld
      omega
    exact ⟨⟨⟨by simpa using hne, by simpa using h1⟩, h2⟩, hdrop, fun c hc => h3 c hc⟩

theorem lookup_none_iff {β : Type} (k : String) :
    ∀ c : List (String × β), List.lookup k c = Option.none ↔ ∀ p ∈ c, k ≠ p.1 := by
  intro c
  induction c with
  | nil => simp
  | cons p rest ih =>
    obtain ⟨a, b⟩ := p
    by_cases h : k = a
    · subst h
      simp [List.lookup_cons]
    · simp only [List.lookup_cons, beq_eq_false_iff_ne.mpr h]
      simp [h, ih]

theorem lookup_take_none {β : Type} (k : String) (c : List (String × β)) (n : Nat)
    (h : List.lookup k c = Option.none) : List.lookup k (c.take n) = Option.none := by
  rw [lookup_none_iff] at h ⊢
  exact fun p hp => h p (List.mem_of_mem_take hp)

theorem take_append_take {α : Type} (n : Nat) (xs ys : List α) :
    (xs ++ ys.take n).take n = (xs ++ ys).take n := by
  rw [List.take_append_eq_append_take, List.take_append_eq_append_take, List.take_take]
  have : min (n - xs.length) n = n - xs.length := by omega
  rw [this]

theorem sanitise_str_toList (s : String) :
    (sanitise_string (.str s)).toList = sanitiseList s.toList := rfl

theorem mk_toList (cs : List Char) : (String.mk cs).toList = cs := rfl

theorem dropWhile_replicate_of_neg {α : Type} (p : α → Bool) (n : Nat) (a : α)
    (h : p a = false) : (List.replicate n a).dropWhile p = List.replicate n a := by
  cases n with
  | zero => rfl
  | succ m => simp [List.replicate_succ, List.dropWhile_cons, h]

theorem dropWhile_eq_self_of_false {α : Type} (p : α → Bool) (l : List α)
    (h : ∀ c ∈ l, p c = false) : l.dropWhile p = l := by
  cases l with
  | nil => rfl
  | cons a t => simp [List.dropWhile_cons, h a (List.mem_cons_self a t)]

/-! ## Claim theorems -/

/-- C7: `validate_imdb_id` returns true exactly for strings starting with
`tt`, of total length at least 7, with only decimal digits after the
two-letter head; in particular `tt1234567` validates while `tt123` and
`xx1234567` are rejected. -/
theorem claim_validate_imdb_id :
    (∀ s : String, validate_imdb_id s = true ↔
      (s.toList.take 2 = ['t', 't'] ∧ 7 ≤ s.toList.length ∧
        ∀ c ∈ s.toList.drop 2, c.isDigit = true))
    ∧ validate_imdb_id "tt1234567" = true
    ∧ validate_imdb_id "tt123" = false
    ∧ validate_imdb_id "xx1234567" = false :=
  ⟨validate_imdb_id_iff, by decide, by decide, by decide⟩

/-- Witness for C7 at a concrete identifier. -/
theorem claim_validate_imdb_id_witness :
    validate_imdb_id "tt1234567" = true
    ∧ validate_imdb_id "tt123" = false :=
  ⟨claim_validate_imdb_id.2.1, claim_validate_imdb_id.2.2.1⟩

/-- C3 (failing input): across the modelled upstream failure modes the
fetcher returns `[]` — except that a script element whose JSON document is
not shaped as expected (here a top-level array, so that `data["props"]`
raises `TypeError`), or a script element with no text (so that
`json.loads(None)` raises `TypeError`), makes the exception escape
`get_imdb_keywords`, because the inner handler catches only `KeyError` and
`json.JSONDecodeError`. -/
theorem claim_fetcher_failure_modes :
    get_imdb_keywords_core "tt1234567" .timeout = .ok []
    ∧ get_imdb_keywords_core "tt1234567" (.httpError (some 404)) = .ok []
    ∧ get_imdb_keywords_core "tt1234567" (.ok .absent) = .ok []
    ∧ get_imdb_keywords_core "tt1234567" (.ok .invalidJson) = .ok []
    ∧ get_imdb_keywords_core "invalid" .timeout = .ok []
    ∧ get_imdb_keywords_core "tt1234567" (.ok (.json (.list []))) = .error .typeError
    ∧ get_imdb_keywords_core "tt1234567" (.ok .noText) = .error .typeError :=
  ⟨rfl, rfl, rfl, rfl, rfl, rfl, rfl⟩

/-- C6 (counterexample): an unexpected exception with message
`secret detail` produces a 500 whose body message embeds that exception
text — the response is not limited to a generic message. -/
theorem claim_internal_error_counterexample :
    handle_exceptions (.raiseOther "secret detail")
      = ⟨500, "Internal server error: secret detail"⟩
    ∧ strContains (handle_exceptions (.raiseOther "secret detail")).message "secret detail"
      = true :=
  ⟨rfl, rfl⟩

/-- C6 (amended): every unexpected exception in a wrapped route handler
yields status 500, and the body message is the fixed text
`Internal server error: ` followed by the exception's own message — so the
exception text does reach the HTTP response, while only stack traces stay
confined to the log. -/
theorem claim_internal_error_response (m : String) :
    handle_exceptions (.raiseOther m) = ⟨500, "Internal server error: " ++ m⟩ := rfl

/-- Witness for C6's amended theorem at a concrete exception message. -/
theorem claim_internal_error_response_witness :
    handle_exceptions (.raiseOther "boom")
      = ⟨500, "Internal server error: " ++ "boom"⟩ :=
  claim_internal_error_response "boom"

/-- C8: the health check is healthy (and answers 200) exactly when both the
broker ping and the media-server probe succeed; each failing probe marks
its own service `error` while leaving the other's report intact, so a
broker failure alone still reports the plex service `connected`. -/
theorem claim_health_check (c : Except String Unit) (p : Bool) (pm : String) :
    (health_check c (p, pm)).overall = (if c.isOk && p then "healthy" else "unhealthy")
    ∧ (health_check c (p, pm)).httpStatus = (if c.isOk && p then 200 else 500)
    ∧ (health_check c (p, pm)).celery.status = (if c.isOk then "connected" else "error")
    ∧ (health_check c (p, pm)).plex.status = (if p then "connected" else "error")
    ∧ (health_check c (p, pm)).bodyStatus = (if c.isOk && p then "success" else "error") := by
  cases c <;> cases p <;> simp [health_check, Except.isOk, Except.toBool]

/-- Witness for C8 at a concrete probe outcome: broker down, plex up. -/
theorem claim_health_check_witness :
    (health_check (.error "down") (true, "Connected")).overall
      = (if (Except.error "down" : Except String Unit).isOk && true
          then "healthy" else "unhealthy")
    ∧ (health_check (.error "down") (true, "Connected")).plex.status
      = (if true then "connected" else "error") :=
  ⟨(claim_health_check (.error "down") true "Connected").1,
    (claim_health_check (.error "down") true "Connected").2.2.2.1⟩

/-- C9 (counterexample): a 2000-character input consisting of `<` only is
sanitised to the empty string, so an input of length 2000 does not always
yield an output of length exactly 1000. -/
theorem claim_sanitise_counterexample :
    (String.mk (List.replicate 2000 '<')).toList.length = 2000
    ∧ (sanitise_string (.str (String.mk (List.replicate 2000 '<')))).toList.length = 0 := by
  constructor
  · rw [mk_toList]
    exact List.length_replicate 2000 '<'
  · rw [sanitise_str_toList, mk_toList]
    unfold sanitiseList
    have h1 : pyStripList (List.replicate 2000 '<') = List.replicate 2000 '<' := by
      unfold pyStripList
      have hws : pyWs '<' = false := by decide
      rw [dropWhile_replicate_of_neg _ _ _ hws, List.reverse_replicate,
        dropWhile_replicate_of_neg _ _ _ hws, List.reverse_replicate]
    rw [h1, List.filter_replicate]
    simp

theorem sanitiseList_length_le (cs : List Char) : (sanitiseList cs).length ≤ 1000 := by
  unfold sanitiseList
  rw [List.length_take]
  exact min_le_left _ _

theorem sanitiseList_no_bad (cs : List Char) :
    ∀ c ∈ sanitiseList cs, badChar c = false := by
  intro c hc
  unfold sanitiseList at hc
  have hc2 := List.mem_of_mem_take hc
  rw [List.mem_filter] at hc2
  obtain ⟨hc3, hp2⟩ := hc2
  rw [List.mem_filter] at hc3
  obtain ⟨_, hp1⟩ := hc3
  simp only [Bool.not_eq_true', Bool.or_eq_false_iff, decide_eq_false_iff_not] at hp1 hp2
  simp only [badChar, Bool.or_eq_false_iff, decide_eq_false_iff_not]
  exact ⟨⟨⟨⟨hp1.1, hp1.2⟩, hp2.1.1⟩, hp2.1.2⟩, hp2.2⟩

/-- C9 (amended): sanitisation always yields at most 1000 characters, never
containing one of the five stripped characters `< > ' " ;`; the
`<script>alert("xss")</script>` example sanitises to
`scriptalert(xss)/script`; and an input of length 2000 yields exactly 1000
characters provided none of its characters is stripped or whitespace — in
general the output length is the post-strip, post-removal length capped at
1000, which the counterexample shows can be below 1000. -/
theorem claim_sanitise_spec :
    (∀ v : PyVal, (sanitise_string v).toList.length ≤ 1000
      ∧ ∀ c ∈ (sanitise_string v).toList, badChar c = false)
    ∧ sanitise_string (.str ("<script>alert(" ++ dq ++ "xss" ++ dq ++ ")</script>"))
      = "scriptalert(xss)/script"
    ∧ (∀ s : String, s.toList.length = 2000 →
        (∀ c ∈ s.toList, badChar c = false ∧ pyWs c = false) →
        (sanitise_string (.str s)).toList.length = 1000) := by
  refine ⟨?_, by decide, ?_⟩
  · intro v
    cases v <;>
      first
        | exact ⟨by decide, by decide⟩
        | exact ⟨sanitiseList_length_le _, sanitiseList_no_bad _⟩
  · intro s hlen hchars
    rw [sanitise_str_toList]
    have hstrip : pyStripList s.toList = s.toList := by
      unfold pyStripList
      rw [dropWhile_eq_self_of_false _ _ (fun c hc => (hchars c hc).2),
        dropWhile_eq_self_of_false _ _
          (fun c hc => (hchars c (List.mem_reverse.mp hc)).2),
        List.reverse_reverse]
    have hbad : ∀ c ∈ s.toList, badChar c = false := fun c hc => (hchars c hc).1
    unfold sanitiseList
    rw [hstrip]
    have hf1 : s.toList.filter (fun c => !(c = '<' || c = '>')) = s.toList := by
      rw [List.filter_eq_self]
      intro a ha
      have := hbad a ha
      simp only [badChar, Bool.or_eq_false_iff, decide_eq_false_iff_not] at this
      simp [this.1.1.1.1, this.1.1.1.2]
    have hf2 : s.toList.filter
        (fun c => !(c = Char.ofNat 39 || c = Char.ofNat 34 || c = ';')) = s.toList := by
      rw [List.filter_eq_self]
      intro a ha
      have := hbad a ha
      simp only [badChar, Bool.or_eq_false_iff, decide_eq_false_iff_not] at this
      simp [this.1.1.2, this.1.2, this.2]
    rw [hf1, hf2, List.length_take, hlen]
    decide

/-- Witness for C9's amended theorem at a concrete input: 2000 letters `a`
sanitise to exactly 1000 characters. -/
theorem claim_sanitise_spec_witness :
    (sanitise_string (.str (String.mk (List.replicate 2000 'a')))).toList.length = 1000 := by
  refine claim_sanitise_spec.2.2 (String.mk (List.replicate 2000 'a')) ?_ ?_
  · rw [mk_toList]
    exact List.length_replicate 2000 'a'
  · intro c hc
    rw [mk_toList] at hc
    have := List.eq_of_mem_replicate hc
    subst this
    exact ⟨by decide, by decide⟩

theorem pySplitGo_ne_nil (sep : List Char) :
    ∀ (fuel : Nat) (s : List Char), pySplitGo sep fuel s ≠ [] := by
  intro fuel s
  cases fuel with
  | zero => simp [pySplitGo]
  | succ f =>
    unfold pySplitGo
    cases firstOcc sep s <;> simp

theorem firstOcc_of_starts (pat s : List Char) (h : listStarts s pat = true) :
    firstOcc pat s = some 0 := by
  unfold firstOcc
  rw [List.range_succ_eq_map]
  rw [List.find?_cons]
  simp only [List.drop_zero, h]

theorem pySplit_get1_of_starts (s : String) (h : pyStartswith s imdbScheme = true) :
    ∃ cand, (pySplit s imdbScheme).get? 1 = some cand := by
  have hs : listStarts s.toList imdbScheme.toList = true := h
  unfold pySplit
  unfold pySplitGo
  rw [firstOcc_of_starts _ _ hs]
  simp only [List.map_cons, List.get?_cons_succ, List.get?_cons_zero]
  rcases hrest : pySplitGo imdbScheme.toList (s.toList.length)
      (s.toList.drop (0 + imdbScheme.toList.length)) with _ | ⟨a, t⟩
  · exact absurd hrest (pySplitGo_ne_nil _ _ _)
  · exact ⟨String.mk a, by simp⟩

theorem extractGo_eq_firstValid (gs : List PyVal)
    (h : ∀ g ∈ gs, ∀ ges, g = PyVal.dict ges →
      ∃ s, (ges.lookup "id").getD (.str "") = .str s) :
    extractGo gs = .ok (firstValidCandidate gs) := by
  induction gs with
  | nil => rfl
  | cons g rest ih =>
    have hrest := ih (fun g2 hg2 => h g2 (List.mem_cons_of_mem g hg2))
    cases g with
    | dict ges =>
      obtain ⟨s, hs⟩ := h (.dict ges) (List.mem_cons_self _ _) ges rfl
      show (match (ges.lookup "id").getD (.str "") with
        | PyVal.str s =>
          if pyStartswith s imdbScheme then
            match (pySplit s imdbScheme).get? 1 with
            | some cand =>
              if validate_imdb_id cand then Except.ok (some cand) else extractGo rest
            | Option.none => Except.error PyExc.indexError
          else extractGo rest
        | _ => Except.error PyExc.attributeError)
        = .ok (firstValidCandidate (PyVal.dict ges :: rest))
      rw [hs]
      have hgc : guidCandidate (PyVal.dict ges)
          = (if pyStartswith s imdbScheme then
              match (pySplit s imdbScheme).get? 1 with
              | some cand => if validate_imdb_id cand then some cand else Option.none
              | Option.none => Option.none
            else Option.none) := by
        show (match (ges.lookup "id").getD (.str "") with
          | PyVal.str s =>
            if pyStartswith s imdbScheme then
              match (pySplit s imdbScheme).get? 1 with
              | some cand => if validate_imdb_id cand then some cand else Option.none
              | Option.none => Option.none
            else Option.none
          | _ => Option.none) = _
        rw [hs]
      simp only [firstValidCandidate, List.filterMap_cons, hgc]
      by_cases hpre : pyStartswith s imdbScheme = true
      · obtain ⟨cand, hc⟩ := pySplit_get1_of_starts s hpre
        simp only [hpre, if_true, hc]
        by_cases hv : validate_imdb_id cand = true
        · simp [hv]
        · rw [Bool.not_eq_true] at hv
          simp only [hv, Bool.false_eq_true, if_false]
          exact hrest
      · rw [Bool.not_eq_true] at hpre
        simp only [hpre, Bool.false_eq_true, if_false]
        exact hrest
    | none => exact hrest
    | bool b => exact hrest
    | int n => exact hrest
    | float r => exact hrest
    | str s => exact hrest
    | list xs => exact hrest

/-- C5 (amended): the intake selects the first identifier record whose
code-derived candidate — `split("imdb://")[1]`, the segment between the
first and second occurrence of the scheme — validates, SKIPPING records
that carry the scheme but fail validation (provided every dict record's
`id` value is a string; a non-string `id` aborts extraction).  The 400
`No valid IMDb ID found` answer is produced exactly when extraction yields
nothing. -/
theorem claim_webhook_extraction :
    (∀ (es : List (String × PyVal)) (gs : List PyVal),
        (es.lookup "Guid").getD (.list []) = .list gs →
        (∀ g ∈ gs, ∀ ges, g = PyVal.dict ges →
          ∃ s, (ges.lookup "id").getD (.str "") = .str s) →
        extract_imdb_id (.dict es) = firstValidCandidate gs)
    ∧ (∀ (m : PyVal) (rest : List (String × PyVal)),
        extract_imdb_id m = Option.none →
        plex_webhook (.parsed (.dict (("event", .str "library.new") :: ("Metadata", m) :: rest)))
          = ⟨400, "No valid IMDb ID found", Option.none⟩) := by
  constructor
  · intro es gs hgs hwf
    show (match (es.lookup "Guid").getD (.list []) with
      | PyVal.list gs =>
        (match extractGo gs with
         | .ok r => r
         | .error _ => Option.none)
      | _ => Option.none) = firstValidCandidate gs
    rw [hgs]
    show (match extractGo gs with
      | .ok r => r
      | .error _ => Option.none) = firstValidCandidate gs
    rw [extractGo_eq_firstValid gs hwf]
  · intro m rest h
    show plex_webhook (.parsed (.dict (("event", .str "library.new") :: ("Metadata", m) :: rest)))
      = ⟨400, "No valid IMDb ID found", Option.none⟩
    unfold plex_webhook
    simp only [pyTruthy, isPyDict, pyDictEntries, List.isEmpty_cons, Bool.not_false,
      Bool.and_self, Bool.not_true, List.lookup_cons]
    rw [if_neg (by simp)]
    have h1 : (("event" : String) == "event") = true := by decide
    have h2 : (("Metadata" : String) == "event") = false := by decide
    have h3 : (("Metadata" : String) == "Metadata") = true := by decide
    simp only [List.lookup_cons, h1, h2, h3, beq_iff_eq]
    simp only [show (("library.new" : String) == "library.new") = true from by decide]
    rw [if_neg (by simp)]
    simp only [Option.getD_some, h]

/-- Witness for C5's amended theorem: a concrete guid list where the first
scheme-carrying record is invalid, and a concrete payload with no valid
id answered by the 400. -/
theorem claim_webhook_extraction_witness :
    extract_imdb_id (.dict [("Guid", .list [.dict [("id", .str "imdb://bad1234")],
        .dict [("id", .str "imdb://tt1234567")]])])
      = firstValidCandidate [.dict [("id", .str "imdb://bad1234")],
          .dict [("id", .str "imdb://tt1234567")]]
    ∧ plex_webhook (.parsed (.dict [("event", .str "library.new"), ("Metadata", .dict [])]))
      = ⟨400, "No valid IMDb ID found", Option.none⟩ := by
  constructor
  · refine claim_webhook_extraction.1 _ _ rfl ?_
    intro g hg ges hge
    simp only [List.mem_cons, List.not_mem_nil, or_false] at hg
    rcases hg with rfl | rfl
    · cases hge
      exact ⟨"imdb://bad1234", rfl⟩
    · cases hge
      exact ⟨"imdb://tt1234567", rfl⟩
  · exact claim_webhook_extraction.2 (.dict []) [] rfl

/-- C5 (counterexample to the claim as stated): the code does NOT reject
when the first scheme-carrying identifier is invalid — it skips it and
accepts a later valid one; and the candidate it validates is
`split("imdb://")[1]`, not the scheme-stripped remainder, so
`imdb://tt12345imdb://9` is accepted as `tt12345` although its stripped
remainder `tt12345imdb://9` is invalid.  `extract_imdb_id_claim` is the
claim's reading, for contrast. -/
theorem claim_webhook_extraction_counterexample :
    extract_imdb_id (.dict [("Guid", .list [.dict [("id", .str "imdb://bad1234")],
        .dict [("id", .str "imdb://tt1234567")]])]) = some "tt1234567"
    ∧ extract_imdb_id_claim (.dict [("Guid", .list [.dict [("id", .str "imdb://bad1234")],
        .dict [("id", .str "imdb://tt1234567")]])]) = Option.none
    ∧ extract_imdb_id (.dict [("Guid", .list [.dict [("id", .str "imdb://tt12345imdb://9")]])])
      = some "tt12345"
    ∧ extract_imdb_id_claim (.dict [("Guid", .list [.dict [("id", .str "imdb://tt12345imdb://9")]])])
      = Option.none
    ∧ validate_imdb_id "tt12345imdb://9" = false :=
  ⟨rfl, rfl, rfl, rfl, by decide⟩

/-- C1: one enrichment-task attempt, over all fetcher and writer outcomes:
an empty fetch result fails the attempt with the `No keywords found`
condition and never calls the writer; otherwise the writer is called
exactly once with exactly the first 50 fetched tags, a false writer answer
fails the attempt, and a true answer returns a success whose message
reports the count of labels written. -/
theorem claim_task_attempt (imdb_id rating_key : String) (fetched : List PyVal)
    (writer : List PyVal → Bool) :
    (fetched = [] →
      async_update_labels_attempt imdb_id rating_key fetched writer
        = ⟨.failure ("No keywords found for IMDb ID: " ++ imdb_id), []⟩)
    ∧ (fetched ≠ [] →
        (async_update_labels_attempt imdb_id rating_key fetched writer).writerCalls
          = [(rating_key, fetched.take 50)]
        ∧ (writer (fetched.take 50) = false →
            (async_update_labels_attempt imdb_id rating_key fetched writer).outcome
              = .failure ("Failed to update Plex labels for rating key: " ++ rating_key))
        ∧ (writer (fetched.take 50) = true →
            (async_update_labels_attempt imdb_id rating_key fetched writer).outcome
              = .success ("Updated " ++ toString (fetched.take 50).length
                  ++ " labels for " ++ imdb_id) (fetched.take 50))) := by
  constructor
  · intro h
    subst h
    rfl
  · intro h
    have hne : fetched.isEmpty = false := by simpa [List.isEmpty_iff] using h
    unfold async_update_labels_attempt
    simp only [hne, Bool.false_eq_true, if_false]
    by_cases hw : writer (fetched.take 50) = true
    · simp [hw]
    · rw [Bool.not_eq_true] at hw
      simp [hw]

/-- Witness for C1 at concrete inputs, covering the empty-fetch, failing
writer and successful paths; the two-tag success message reports `2`. -/
theorem claim_task_attempt_witness :
    async_update_labels_attempt "tt1234567" "456" [] (fun _ => true)
      = ⟨.failure "No keywords found for IMDb ID: tt1234567", []⟩
    ∧ (async_update_labels_attempt "tt1234567" "456" [.str "a", .str "b"]
        (fun _ => true)).writerCalls = [("456", [.str "a", .str "b"])]
    ∧ (async_update_labels_attempt "tt1234567" "456" [.str "a", .str "b"]
        (fun _ => true)).outcome
      = .success "Updated 2 labels for tt1234567" [.str "a", .str "b"]
    ∧ (async_update_labels_attempt "tt1234567" "789" [.str "a"] (fun _ => false)).outcome
      = .failure "Failed to update Plex labels for rating key: 789"
    ∧ strContains "Updated 2 labels for tt1234567" "2" = true := by
  refine ⟨?_, ?_, ?_, ?_, rfl⟩
  · exact (claim_task_attempt "tt1234567" "456" [] (fun _ => true)).1 rfl
  · exact ((claim_task_attempt "tt1234567" "456" [.str "a", .str "b"]
      (fun _ => true)).2 (by simp)).1
  · exact ((claim_task_attempt "tt1234567" "456" [.str "a", .str "b"]
      (fun _ => true)).2 (by simp)).2.2 rfl
  · exact ((claim_task_attempt "tt1234567" "789" [.str "a"]
      (fun _ => false)).2 (by simp)).2.1 rfl

theorem celeryStep_cases (body : Nat → AttemptOutcome) (r : Nat) :
    (∃ m, celeryStep body r = .done m)
    ∨ (celeryStep body r = .retryScheduled celeryRetryDelay ∧ r < celeryMaxRetries)
    ∨ (∃ e, celeryStep body r = .abandonedRaise e false) := by
  unfold celeryStep
  cases body r with
  | success m ls => exact Or.inl ⟨m, rfl⟩
  | failure e =>
    by_cases h : celeryMaxRetries < r + 1
    · exact Or.inr (Or.inr ⟨e, by simp [h]⟩)
    · exact Or.inr (Or.inl ⟨by simp [h], by omega⟩)

theorem jobTraceGo_length_le (body : Nat → AttemptOutcome) :
    ∀ (fuel r : Nat), (jobTraceGo body fuel r).length ≤ fuel := by
  intro fuel
  induction fuel with
  | zero => intro r; simp [jobTraceGo]
  | succ f ih =>
    intro r
    unfold jobTraceGo
    rcases celeryStep_cases body r with ⟨m, hm⟩ | ⟨hm, hr⟩ | ⟨e, hm⟩ <;>
      simp [hm, Nat.succ_le_succ (ih (r + 1))]

theorem jobTraceGo_mem (body : Nat → AttemptOutcome) :
    ∀ (fuel r : Nat), ∀ s ∈ jobTraceGo body fuel r,
      (∃ m, s = .done m) ∨ s = .retryScheduled celeryRetryDelay
        ∨ (∃ e, s = .abandonedRaise e false) := by
  intro fuel
  induction fuel with
  | zero => intro r s hs; simp [jobTraceGo] at hs
  | succ f ih =>
    intro r s hs
    unfold jobTraceGo at hs
    rcases celeryStep_cases body r with ⟨m, hm⟩ | ⟨hm, hr⟩ | ⟨e, hm⟩ <;> rw [hm] at hs
    · simp only [List.mem_singleton] at hs
      exact Or.inl ⟨m, hs⟩
    · simp only [List.mem_cons] at hs
      rcases hs with rfl | hs
      · exact Or.inr (Or.inl rfl)
      · exact ih (r + 1) s hs
    · simp only [List.mem_singleton] at hs
      exact Or.inr (Or.inr ⟨e, hs⟩)

/-- C2 (amended): the body of an enrichment job executes at most 4 times
(1 initial run plus the 3 retries of `max_retries=3`, so the logged attempt
number reaches 4); a retry is scheduled exactly with the fixed 300-second
backoff and only while the prior-retry count is below 3; and the
`task_failed` final-failure log never fires — on exhaustion
`Task.retry(exc=...)` re-raises the stored exception rather than
`MaxRetriesExceededError`, so the job is abandoned with only the last
`task_error` log. -/
theorem claim_retry_policy (body : Nat → AttemptOutcome) :
    bodyExecutions body ≤ celeryMaxRetries + 1
    ∧ (∀ r d, celeryStep body r = .retryScheduled d →
        d = celeryRetryDelay ∧ r < celeryMaxRetries)
    ∧ (∀ s ∈ jobTrace body, ∀ e b, s = StepResult.abandonedRaise e b → b = false) := by
  refine ⟨jobTraceGo_length_le body _ 0, ?_, ?_⟩
  · intro r d h
    rcases celeryStep_cases body r with ⟨m, hm⟩ | ⟨hm, hr⟩ | ⟨e, hm⟩
    · rw [hm] at h
      exact absurd h (by simp)
    · rw [hm] at h
      injection h with h1
      exact ⟨h1.symm, hr⟩
    · rw [hm] at h
      exact absurd h (by simp)
  · intro s hs e b hb
    rcases jobTraceGo_mem body _ 0 s hs with ⟨m, rfl⟩ | rfl | ⟨e2, rfl⟩
    · exact absurd hb (by simp)
    · exact absurd hb (by simp)
    · injection hb with h1 h2
      exact h2.symm

/-- Witness for C2's amended theorem at the all-failing body. -/
theorem claim_retry_policy_witness :
    bodyExecutions (fun _ => AttemptOutcome.failure "boom") ≤ celeryMaxRetries + 1
    ∧ ((300 : Nat) = celeryRetryDelay ∧ 0 < celeryMaxRetries)
    ∧ (false : Bool) = false := by
  have h := claim_retry_policy (fun _ => AttemptOutcome.failure "boom")
  refine ⟨h.1, h.2.1 0 300 rfl, ?_⟩
  exact h.2.2 (.abandonedRaise "boom" false) (by decide) "boom" false rfl

/-- C2 (counterexample to the claim as stated): with every attempt failing,
the task body executes 4 times — the attempt count exceeds 3 — and the
trace ends with the exception propagating, the final-failure log never
having been emitted. -/
theorem claim_retry_policy_counterexample :
    bodyExecutions (fun _ => AttemptOutcome.failure "No keywords found for IMDb ID: tt1234567")
      = 4
    ∧ ¬(bodyExecutions
        (fun _ => AttemptOutcome.failure "No keywords found for IMDb ID: tt1234567") ≤ 3)
    ∧ jobTrace (fun _ => AttemptOutcome.failure "No keywords found for IMDb ID: tt1234567")
      = [.retryScheduled 300, .retryScheduled 300, .retryScheduled 300,
         .abandonedRaise "No keywords found for IMDb ID: tt1234567" false] := by
  exact ⟨rfl, by decide, rfl⟩

/-- C4 (amended): the label writer rejects an invalid rating key, a falsy
or non-list tag value, and a normalization result that is empty (the last
with a warning-level log); otherwise the outbound request carries exactly
one indexed field per normalized label and the call succeeds exactly on a
2xx response.  Normalization keeps the tags that are truthy and of scalar
type and coerces each to a trimmed string — a whitespace-only tag
therefore survives as an empty string (see the counterexample). -/
theorem claim_label_writer (rk labels : PyVal) (env : WriteEnv) :
    (validate_rating_key rk = false →
      update_plex_labels rk labels env
        = ⟨false, Option.none, [⟨"error", "Invalid rating key format"⟩]⟩)
    ∧ (validate_rating_key rk = true → (pyTruthy labels && isPyList labels) = false →
      update_plex_labels rk labels env
        = ⟨false, Option.none, [⟨"error", "Invalid labels format"⟩]⟩)
    ∧ (validate_rating_key rk = true → (pyTruthy labels && isPyList labels) = true →
      normalizeLabels (pyListElems labels) = [] →
      update_plex_labels rk labels env
        = ⟨false, Option.none, [⟨"warning", "No valid labels to update"⟩]⟩)
    ∧ (validate_rating_key rk = true → (pyTruthy labels && isPyList labels) = true →
      normalizeLabels (pyListElems labels) ≠ [] →
      (update_plex_labels rk labels env).sentParams
        = some (labelParams (normalizeLabels (pyListElems labels)))
      ∧ ((update_plex_labels rk labels env).success = true ↔ env = .ok)) := by
  refine ⟨?_, ?_, ?_, ?_⟩
  · intro h
    unfold update_plex_labels
    simp [h]
  · intro h1 h2
    unfold update_plex_labels
    simp [h1, h2]
  · intro h1 h2 h3
    unfold update_plex_labels
    simp [h1, h2, h3]
  · intro h1 h2 h3
    have h3e : (normalizeLabels (pyListElems labels)).isEmpty = false := by
      simpa [List.isEmpty_iff] using h3
    unfold update_plex_labels
    simp only [h1, Bool.not_true, Bool.false_eq_true, if_false, h2, h3e]
    cases env <;> simp

/-- Witness for C4's amended theorem: one concrete input per branch. -/
theorem claim_label_writer_witness :
    update_plex_labels (.str "abc") (.list [.str "x"]) .ok
      = ⟨false, Option.none, [⟨"error", "Invalid rating key format"⟩]⟩
    ∧ update_plex_labels (.str "123") (.int 5) .ok
      = ⟨false, Option.none, [⟨"error", "Invalid labels format"⟩]⟩
    ∧ update_plex_labels (.str "123") (.list [.int 0]) .ok
      = ⟨false, Option.none, [⟨"warning", "No valid labels to update"⟩]⟩
    ∧ (update_plex_labels (.str "123") (.list [.str "x"]) .ok).sentParams
      = some [("label[0].tag.tag", "x")]
    ∧ ((update_plex_labels (.str "123") (.list [.str "x"]) .ok).success = true
        ↔ WriteEnv.ok = WriteEnv.ok) := by
  have h4 := (claim_label_writer (.str "123") (.list [.str "x"]) .ok).2.2.2
    rfl rfl (by decide)
  exact ⟨(claim_label_writer (.str "abc") (.list [.str "x"]) .ok).1 rfl,
    (claim_label_writer (.str "123") (.int 5) .ok).2.1 rfl rfl,
    (claim_label_writer (.str "123") (.list [.int 0]) .ok).2.2.1 rfl rfl rfl,
    h4.1, h4.2⟩

/-- C4 (counterexample to the claim as stated): a whitespace-only tag is
truthy (so it passes the filter) and strips to the empty string, so the
outbound request carries an empty-string label value. -/
theorem claim_label_writer_counterexample :
    (update_plex_labels (.str "123") (.list [.str "   "]) .ok).success = true
    ∧ (update_plex_labels (.str "123") (.list [.str "   "]) .ok).sentParams
      = some [("label[0].tag.tag", "")] :=
  ⟨rfl, rfl⟩

theorem core_timeout (id : String) :
    get_imdb_keywords_core id FetchEnv.timeout = .ok [] := by
  unfold get_imdb_keywords_core
  split <;> rfl

theorem cacheInsert_eq_take (c : Cache) (k : String) (v : List PyVal) :
    cacheInsert c k v = ((k, v) :: c).take lruMaxsize := by
  unfold cacheInsert
  show (if lruMaxsize < ((k, v) :: c).length then ((k, v) :: c).take lruMaxsize
      else (k, v) :: c) = ((k, v) :: c).take lruMaxsize
  split
  · rfl
  · next h =>
    rw [List.take_of_length_le (by omega)]

theorem cacheInsert_lookup_self (c : Cache) (k : String) (v : List PyVal) :
    cacheLookup (cacheInsert c k v) k = some v := by
  rw [cacheInsert_eq_take]
  show List.lookup k (((k, v) :: c).take (999 + 1)) = some v
  rw [List.take_succ_cons, List.lookup_cons]
  simp

theorem fetch_miss_cache (id : String) (acc : Cache)
    (hmiss : cacheLookup acc id = Option.none) :
    (get_imdb_keywords id FetchEnv.timeout acc).cache
      = ((id, ([] : List PyVal)) :: acc).take lruMaxsize := by
  unfold get_imdb_keywords
  rw [hmiss, core_timeout]
  exact cacheInsert_eq_take acc id []

theorem fold_fresh (ids : List String) :
    ∀ acc : Cache, acc.length ≤ lruMaxsize →
      (∀ id ∈ ids, cacheLookup acc id = Option.none) →
      ids.Nodup →
      ids.foldl (fun c id => (get_imdb_keywords id FetchEnv.timeout c).cache) acc
        = ((ids.reverse.map (fun id => (id, ([] : List PyVal)))) ++ acc).take lruMaxsize := by
  induction ids with
  | nil =>
    intro acc hlen _ _
    simp [List.take_of_length_le hlen]
  | cons id rest ih =>
    intro acc hlen hfresh hnd
    rw [List.foldl_cons, fetch_miss_cache id acc (hfresh id (List.mem_cons_self id rest))]
    have hnd2 := List.nodup_cons.mp hnd
    have hfresh2 : ∀ id2 ∈ rest,
        cacheLookup (((id, ([] : List PyVal)) :: acc).take lruMaxsize) id2 = Option.none := by
      intro id2 h2
      apply lookup_take_none
      rw [List.lookup_cons]
      have hne : (id2 == id) = false :=
        beq_eq_false_iff_ne.mpr (fun hc => hnd2.1 (hc ▸ h2))
      rw [hne]
      exact hfresh id2 (List.mem_cons_of_mem id h2)
    rw [ih (((id, ([] : List PyVal)) :: acc).take lruMaxsize)
      (by rw [List.length_take]; exact min_le_left _ _) hfresh2 hnd2.2]
    rw [take_append_take, List.reverse_cons, List.map_append]
    simp [List.append_assoc]

theorem evictId_data (i : Nat) :
    (evictId i).data
      = ['t', 't'] ++ (List.replicate (i + 1) '1' ++ List.replicate (lruMaxsize - i) '0') := rfl

theorem evictId_length (i : Nat) : (evictId i).length = 2 + ((i + 1) + (lruMaxsize - i)) := by
  show (evictId i).data.length = _
  rw [evictId_data]
  simp only [List.length_append, List.length_replicate, List.length_cons, List.length_nil]

theorem evictId_injective : Function.Injective evictId := by
  intro i j h
  have hd := congrArg String.data h
  rw [evictId_data, evictId_data] at hd
  have h2 := List.append_cancel_left hd
  have c10 : ∀ n, List.count '1' (List.replicate n '0') = 0 := by
    intro n
    rw [List.count_eq_zero]
    intro hmem
    exact absurd (List.eq_of_mem_replicate hmem) (by decide)
  have h3 := congrArg (List.count '1') h2
  rw [List.count_append, List.count_append, List.count_replicate_self,
    List.count_replicate_self, c10, c10] at h3
  omega

theorem evictId_ne_probe (i : Nat) (h : i < lruMaxsize) : evictId i ≠ "tt0000000" := by
  intro hc
  have := congrArg String.length hc
  rw [evictId_length] at this
  have h9 : ("tt0000000" : String).length = 9 := rfl
  rw [h9] at this
  unfold lruMaxsize at h this
  omega

theorem evictIds_nodup : evictIds.Nodup :=
  (List.nodup_range lruMaxsize).map evictId_injective

theorem evictIds_mem (id : String) (h : id ∈ evictIds) :
    ∃ i, i < lruMaxsize ∧ id = evictId i := by
  unfold evictIds at h
  rw [List.mem_map] at h
  obtain ⟨i, hi, rfl⟩ := h
  exact ⟨i, List.mem_range.mp hi, rfl⟩

theorem evictedCache_eq :
    evictedCache = evictIds.reverse.map (fun id => (id, ([] : List PyVal))) := by
  unfold evictedCache
  have hinit : (get_imdb_keywords "tt0000000" FetchEnv.timeout []).cache
      = [("tt0000000", ([] : List PyVal))] := rfl
  rw [hinit]
  rw [fold_fresh evictIds [("tt0000000", [])] (by decide) ?_ evictIds_nodup]
  · apply List.take_left'
    rw [List.length_map, List.length_reverse]
    unfold evictIds
    rw [List.length_map, List.length_range]
  · intro id hid
    obtain ⟨i, hi, rfl⟩ := evictIds_mem id hid
    show List.lookup (evictId i) [("tt0000000", ([] : List PyVal))] = Option.none
    rw [List.lookup_cons, beq_eq_false_iff_ne.mpr (evictId_ne_probe i hi)]
    rfl

theorem get_imdb_keywords_miss (id : String) (env : FetchEnv) (c : Cache)
    (h : cacheLookup c id = Option.none) :
    get_imdb_keywords id env c
      = (match get_imdb_keywords_core id env with
         | .ok v => ⟨.ok v, cacheInsert c id v, validate_imdb_id id⟩
         | .error e => ⟨.error e, c, validate_imdb_id id⟩) := by
  unfold get_imdb_keywords
  rw [h]

theorem evictedCache_lookup_none :
    cacheLookup evictedCache "tt0000000" = Option.none := by
  rw [evictedCache_eq]
  unfold cacheLookup
  rw [lookup_none_iff]
  intro p hp
  rw [List.mem_map] at hp
  obtain ⟨id, hid, rfl⟩ := hp
  obtain ⟨i, hi, rfl⟩ := evictIds_mem id (List.mem_reverse.mp hid)
  exact fun hc => evictId_ne_probe i hi hc.symm

/-- C10 (counterexample to the claim as stated): the cache is bounded at
1000 entries with least-recently-used eviction, so "every later call
returns the cached result without a network call" fails: after the first
(failed, empty-cached) fetch of `tt0000000` and 1000 fetches of distinct
other identifiers, the entry is evicted and a new call for `tt0000000`
does go to the network — and can now return a fresh non-empty result. -/
theorem claim_fetch_cache_counterexample :
    cacheLookup ((get_imdb_keywords "tt0000000" FetchEnv.timeout []).cache) "tt0000000"
      = some []
    ∧ cacheLookup evictedCache "tt0000000" = Option.none
    ∧ refetch.networkCalled = true
    ∧ refetch.result = .ok [PyVal.str "a"] := by
  have hr : refetch
      = get_imdb_keywords "tt0000000" (.ok (.json (kwJson ["a"]))) evictedCache := rfl
  have h := get_imdb_keywords_miss "tt0000000" (.ok (.json (kwJson ["a"]))) evictedCache
    evictedCache_lookup_none
  have hcore : get_imdb_keywords_core "tt0000000" (.ok (.json (kwJson ["a"])))
      = .ok [PyVal.str "a"] := rfl
  rw [hcore] at h
  refine ⟨rfl, evictedCache_lookup_none, ?_, ?_⟩
  · rw [hr, h]
    rfl
  · rw [hr, h]

/-- C10 (amended): `lru_cache` caches every normally-returned result,
including the `[]` of a failed fetch, and while an identifier's entry is
still in the cache every later call returns that cached value without any
network request; in particular a task retry whose fetcher answers the
cached `[]` fails again with the `No keywords found` condition — the job
cannot succeed while the empty entry persists.  (The cache holds at most
1000 entries, so the entry can be evicted; see the counterexample.) -/
theorem claim_fetch_cache (id rk : String) (env : FetchEnv) (c : Cache) :
    (∀ v, cacheLookup c id = some v →
      get_imdb_keywords id env c = ⟨.ok v, cacheTouch c id, false⟩)
    ∧ (∀ v, cacheLookup c id = Option.none → get_imdb_keywords_core id env = .ok v →
      cacheLookup (get_imdb_keywords id env c).cache id = some v)
    ∧ (∀ writer : List PyVal → Bool,
      (async_update_labels_attempt id rk [] writer).outcome
        = .failure ("No keywords found for IMDb ID: " ++ id)) := by
  refine ⟨?_, ?_, fun writer => rfl⟩
  · intro v hv
    unfold get_imdb_keywords
    rw [hv]
  · intro v hmiss hcore
    unfold get_imdb_keywords
    rw [hmiss, hcore]
    exact cacheInsert_lookup_self c id v

/-- Witness for C10's amended theorem at concrete cache states. -/
theorem claim_fetch_cache_witness :
    get_imdb_keywords "tt1234567" FetchEnv.timeout [("tt1234567", [])]
      = ⟨.ok [], cacheTouch [("tt1234567", [])] "tt1234567", false⟩
    ∧ cacheLookup (get_imdb_keywords "tt1234567" FetchEnv.timeout []).cache "tt1234567"
      = some []
    ∧ (async_update_labels_attempt "tt1234567" "999" [] (fun _ => true)).outcome
      = .failure ("No keywords found for IMDb ID: " ++ "tt1234567") := by
  refine ⟨?_, ?_, ?_⟩
  · exact (claim_fetch_cache "tt1234567" "999" FetchEnv.timeout [("tt1234567", [])]).1 [] rfl
  · exact (claim_fetch_cache "tt1234567" "999" FetchEnv.timeout []).2.1 [] rfl rfl
  · exact (claim_fetch_cache "tt1234567" "999" FetchEnv.timeout []).2.2 (fun _ => true)

end PlexWebhook
